import Mathlib

/-!
Verification of the outline post-processing pipeline of the 3D-Viewer
repository: a shallow embedding of `AnimatedTextureBlurOutlinePass`,
`ColorBlurOutlinePass` (its composite fragment shader) and
`SelectedProductHighlighter`, together with theorems settling the
specification claims about them.

JavaScript numbers are modelled as rationals (`ℚ`); all JS arithmetic used
by the embedded code (`Math.round`, the `%` remainder operator, `min`,
`max`, `clamp`) is exact on the inputs that occur.
-/

namespace ThreeDViewer

/-- JS `Math.round`: round half away from negative infinity, i.e.
`Math.round(x) = floor(x + 0.5)`. -/
def jsRound (q : ℚ) : ℤ :=
  ⌊q + 1 / 2⌋

/-- The value of `jsRound` coerced back to a JS number (`ℚ`). -/
def jsRoundQ (q : ℚ) : ℚ :=
  (jsRound q : ℚ)

/-- JS truncation toward zero, the integer part used by the `%` operator. -/
def jsTrunc (q : ℚ) : ℤ :=
  if 0 ≤ q then ⌊q⌋ else ⌈q⌉

/-- The JS remainder operator `a % b` (sign follows the dividend):
`a % b = a - b * trunc(a / b)`.  Only meaningful for `b ≠ 0`, which is how
the embedded code uses it (`interval > 0`). -/
def jsRem (a b : ℚ) : ℚ :=
  a - b * (jsTrunc (a / b) : ℚ)

/-- GLSL `clamp(x, lo, hi) = min(max(x, lo), hi)`. -/
def clampQ (x lo hi : ℚ) : ℚ :=
  min (max x lo) hi

/-- The class field `downsampleResolution`, `private readonly` and always 2
(`animated-texture-blur-outline-pass.ts`). -/
def downsampleResolution : ℚ := 2

end ThreeDViewer

namespace ThreeDViewer.AnimatedOutline

open ThreeDViewer

/-- An image or canvas handed to `setColors` / `setTexture`.
`getTextureDimensions` reads `width`/`height` for a canvas and
`naturalWidth`/`naturalHeight` for an image element, so both pairs are
modelled. -/
structure Image where
  isCanvas : Bool
  width : ℤ
  height : ℤ
  naturalWidth : ℤ
  naturalHeight : ℤ
deriving DecidableEq, Repr

/-- The value of a texture channel field (`hoverTexture` / `selectedTexture`):
either a `WebGLRenderTarget` (identified by id) or a `Texture` (identified by
id, carrying its `image` and `needsUpdate` fields).  `wrapS = RepeatWrapping`
set by `createNewTexture` has no behavioural role here and is not modelled. -/
inductive ChannelVal where
  | rt (id : ℕ)
  | tex (tid : ℕ) (img : Option Image) (needsUpdate : Bool)
deriving DecidableEq, Repr

/-- The composite material's texture uniform for a channel: either a render
target's `.texture` or a reference to an owned `Texture` (by id). -/
inductive UniformVal where
  | rtTex (id : ℕ)
  | texRef (tid : ℕ)
deriving DecidableEq, Repr

/-- Embedding of `getTextureDimensions` (`animated-texture-blur-outline-pass.ts:306`). -/
def getTextureDimensions (image : Option Image) : ℤ × ℤ :=
  match image with
  | none => (0, 0)
  | some i => if i.isCanvas then (i.width, i.height) else (i.naturalWidth, i.naturalHeight)

/-- Which texture channel an operation addresses (`TexturePropertyKey`). -/
inductive TexKey where
  | hoverTexture
  | selectedTexture
deriving DecidableEq, Repr

/-- Input to `setTexture`: `HTMLImageElement | HTMLCanvasElement | WebGLRenderTarget`. -/
inductive TexInput where
  | img (i : Image)
  | rtIn (id : ℕ)
deriving DecidableEq, Repr

/-- The `ColorBlurOutlineTextures` argument of `setColors`. -/
structure ColorBlurOutlineTextures where
  hover : Option TexInput
  selected : Option TexInput
deriving DecidableEq, Repr

/-- The `AnimatedTextureBlurOutlineOptions` argument of `setOptions`; every
field is optional. `animationInterval` is in milliseconds. -/
structure Options where
  edgeThickness : Option ℚ := none
  edgeGlow : Option ℚ := none
  startU : Option ℚ := none
  tileCount : Option ℚ := none
  animateOutline : Option Bool := none
  animationInterval : Option ℚ := none
deriving DecidableEq, Repr

/-- The render targets (and the screen / the compositor's read buffer) that
draws can be issued into. -/
inductive Target where
  | mask
  | blurHorizontal
  | blurVertical
  | blurHorizontalHalf
  | blurVerticalHalf2
  | readBuffer
deriving DecidableEq, Repr

/-- The state of an `AnimatedTextureBlurOutlinePass` after construction
(`outlineMaterial` exists, so the `if (!this.outlineMaterial) return;`
branch of `setOptions` never fires).  Render-target sizes are the
`(width, height)` pairs of the five targets; `blurTexSize` and
`blurHalfTexSize` are the `texSize` uniforms of the two blur materials. -/
structure PassState where
  maskSize : ℚ × ℚ
  blurHSize : ℚ × ℚ
  blurVSize : ℚ × ℚ
  blurHHalfSize : ℚ × ℚ
  blurVHalf2Size : ℚ × ℚ
  blurTexSize : ℚ × ℚ
  blurHalfTexSize : ℚ × ℚ
  edgeThickness : ℚ
  edgeGlow : ℚ
  startU : ℚ
  tileCount : ℚ
  animateOutline : Bool
  interval : ℚ
  elapsed : ℚ
  hoverTexture : ChannelVal
  selectedTexture : ChannelVal
  uniformHover : UniformVal
  uniformSelected : UniformVal
  uniformStartU : ℚ
  uniformTileCount : ℚ
  uniformMaskTexture : Option Target
  uniformBlurTexture : Option Target
  uniformBlurHalfTexture : Option Target
  nextTexId : ℕ
  renderToScreen : Bool
deriving DecidableEq, Repr

/-- Embedding of `setSize` (`animated-texture-blur-outline-pass.ts:218-232`): resizes the
mask target to `(width, height)`, the horizontal full-res blur target and the
blur material's `texSize` uniform to the rounded downsampled size, and the
horizontal half-res blur target and the half blur material's `texSize`
uniform to half that (rounded again).  The vertical blur targets are not
touched by this method. -/
def setSize (st : PassState) (width height : ℚ) : PassState :=
  let st := { st with maskSize := (width, height) }
  let resX := jsRoundQ (width / downsampleResolution)
  let resY := jsRoundQ (height / downsampleResolution)
  let st := { st with blurHSize := (resX, resY), blurTexSize := (resX, resY) }
  let resX := jsRoundQ (resX / 2)
  let resY := jsRoundQ (resY / 2)
  { st with blurHHalfSize := (resX, resY), blurHalfTexSize := (resX, resY) }

/-- Embedding of `initBlurRenderTargetsAndMaterials`
(`animated-texture-blur-outline-pass.ts:323-353`): allocates both full-res
blur targets at the rounded downsampled resolution and both half-res targets
at half that, and initialises the two blur materials' `texSize` uniforms. -/
def initBlurRenderTargetsAndMaterials (st : PassState) (resX resY : ℚ) : PassState :=
  let rx := jsRoundQ (resX / downsampleResolution)
  let ry := jsRoundQ (resY / downsampleResolution)
  let st := { st with blurHSize := (rx, ry), blurVSize := (rx, ry), blurTexSize := (rx, ry) }
  let rx := jsRoundQ (rx / 2)
  let ry := jsRoundQ (ry / 2)
  { st with blurHHalfSize := (rx, ry), blurVHalf2Size := (rx, ry), blurHalfTexSize := (rx, ry) }

/-- Embedding of `setOptions` (`animated-texture-blur-outline-pass.ts:193-216`), in the
post-construction regime where `outlineMaterial` exists.  Note that a missing
`edgeGlow` falls back to `this.edgeThickness` (already updated on the
previous line), and that when animation is disabled `elapsed` is reset and
the `startU` uniform is rewritten to the configured `startU`. -/
def setOptions (st : PassState) (o : Options) : PassState :=
  let st := { st with edgeThickness := o.edgeThickness.getD st.edgeThickness }
  let st := { st with edgeGlow := o.edgeGlow.getD st.edgeThickness }
  let st := { st with startU := o.startU.getD st.startU }
  let st := { st with tileCount := o.tileCount.getD st.tileCount }
  let st := { st with animateOutline := o.animateOutline.getD st.animateOutline }
  let st :=
    match o.animationInterval with
    | some v => { st with interval := v / 1000 }
    | none => st
  let st := { st with uniformTileCount := st.tileCount }
  if st.animateOutline then st
  else { st with elapsed := 0, uniformStartU := st.startU }

/-- The pass state right after the constructor ran with resolution
`(resX, resY)` and default options (`{}`), matching the field initialisers
and the constructor body.  The composite material's uniform initial values
(`hoverTexture`, `selectedTexture`, `startU`, `tileCount`) follow the
arguments of the `createOutlineMaterial` call in the constructor; the
`create-outline-material` module itself stores exactly these parameters as
uniforms (spec §3/§4.3: the startU uniform holds the configured value). -/
def initPass (resX resY : ℚ) : PassState :=
  let st : PassState := {
    maskSize := (resX, resY)
    blurHSize := (0, 0), blurVSize := (0, 0)
    blurHHalfSize := (0, 0), blurVHalf2Size := (0, 0)
    blurTexSize := (0, 0), blurHalfTexSize := (0, 0)
    edgeThickness := 1, edgeGlow := 2
    startU := 0, tileCount := 1
    animateOutline := true, interval := 60, elapsed := 0
    hoverTexture := ChannelVal.tex 0 none false
    selectedTexture := ChannelVal.tex 1 none false
    uniformHover := UniformVal.texRef 0
    uniformSelected := UniformVal.texRef 1
    uniformStartU := 0, uniformTileCount := 1
    uniformMaskTexture := none, uniformBlurTexture := none, uniformBlurHalfTexture := none
    nextTexId := 2
    renderToScreen := false
  }
  initBlurRenderTargetsAndMaterials st resX resY

/-- Read the channel field `this[key]`. -/
def getChannel (st : PassState) (key : TexKey) : ChannelVal :=
  match key with
  | TexKey.hoverTexture => st.hoverTexture
  | TexKey.selectedTexture => st.selectedTexture

/-- Write the channel field `this[key]`. -/
def setChannel (st : PassState) (key : TexKey) (v : ChannelVal) : PassState :=
  match key with
  | TexKey.hoverTexture => { st with hoverTexture := v }
  | TexKey.selectedTexture => { st with selectedTexture := v }

/-- Read the composite material's texture uniform for `key`. -/
def getUniform (st : PassState) (key : TexKey) : UniformVal :=
  match key with
  | TexKey.hoverTexture => st.uniformHover
  | TexKey.selectedTexture => st.uniformSelected

/-- Write the composite material's texture uniform for `key`
(`this.outlineMaterial.uniforms[key].value = ...`). -/
def setUniform (st : PassState) (key : TexKey) (v : UniformVal) : PassState :=
  match key with
  | TexKey.hoverTexture => { st with uniformHover := v }
  | TexKey.selectedTexture => { st with uniformSelected := v }

/-- Embedding of `createAndSetTexture` (`animated-texture-blur-outline-pass.ts:299-304`):
creates a fresh `Texture` (no image), points the composite uniform at it and
stores it in the channel field. -/
def createAndSetTexture (st : PassState) (key : TexKey) : PassState :=
  let fresh := ChannelVal.tex st.nextTexId none false
  let st := setUniform st key (UniformVal.texRef st.nextTexId)
  let st := setChannel st key fresh
  { st with nextTexId := st.nextTexId + 1 }

/-- The statements `texture.image = image; texture.needsUpdate = true;` applied to the
texture currently stored in the channel field (no-op if the field holds a
render target, which cannot happen at its call sites). -/
def assignChannelImage (st : PassState) (key : TexKey) (image : Image) : PassState :=
  match getChannel st key with
  | ChannelVal.tex tid _ _ => setChannel st key (ChannelVal.tex tid (some image) true)
  | ChannelVal.rt _ => st

/-- Embedding of `setTextureRenderTarget` (`animated-texture-blur-outline-pass.ts:265-272`). -/
def setTextureRenderTarget (st : PassState) (key : TexKey) (rtId : ℕ) : PassState :=
  if getChannel st key = ChannelVal.rt rtId then st
  else
    let st := setChannel st key (ChannelVal.rt rtId)
    setUniform st key (UniformVal.rtTex rtId)

/-- Embedding of `setTextureTexture` (`animated-texture-blur-outline-pass.ts:274-291`).
When the channel currently holds a render target the code only runs
`createAndSetTexture`; the `texture.image = image` assignment sits inside the
`else if (isTexture(texture))` branch and is therefore not executed on that
path. -/
def setTextureTexture (st : PassState) (key : TexKey) (image : Image) : PassState :=
  match getChannel st key with
  | ChannelVal.rt _ => createAndSetTexture st key
  | ChannelVal.tex _ imgOpt _ =>
    let st :=
      match imgOpt with
      | some oldImg =>
        let oldDims := getTextureDimensions (some oldImg)
        let newDims := getTextureDimensions (some image)
        if oldDims.1 ≠ newDims.1 ∨ oldDims.2 ≠ newDims.2 then createAndSetTexture st key
        else st
      | none => st
    assignChannelImage st key image

/-- Embedding of `setTexture` (`animated-texture-blur-outline-pass.ts:257-263`), the
dispatch on `isRenderTarget`. -/
def setTexture (st : PassState) (key : TexKey) (input : TexInput) : PassState :=
  match input with
  | TexInput.rtIn id => setTextureRenderTarget st key id
  | TexInput.img i => setTextureTexture st key i

/-- Embedding of `setColors` (`animated-texture-blur-outline-pass.ts:234-241`). -/
def setColors (st : PassState) (colors : ColorBlurOutlineTextures) : PassState :=
  let st :=
    match colors.hover with
    | some input => setTexture st TexKey.hoverTexture input
    | none => st
  match colors.selected with
  | some input => setTexture st TexKey.selectedTexture input
  | none => st

/-- Embedding of `updateTexture` (`animated-texture-blur-outline-pass.ts:246-252`). -/
def updateTexture (st : PassState) (which : TexKey) : PassState :=
  match which, getChannel st which with
  | TexKey.hoverTexture, ChannelVal.tex tid img _ =>
    setChannel st TexKey.hoverTexture (ChannelVal.tex tid img true)
  | TexKey.selectedTexture, ChannelVal.tex tid img _ =>
    setChannel st TexKey.selectedTexture (ChannelVal.tex tid img true)
  | _, _ => st

end ThreeDViewer.AnimatedOutline

namespace ThreeDViewer.Highlighter

/-- The state of a `SelectedProductHighlighter` (`EffectComposerHandler.ts`,
second embedded module).  Scene objects are identified by natural numbers;
`layers id ch` is the bit of layer channel `ch` on object `id` (three.js
`Layers`).  The static `userData.related` sibling lists are passed separately
as a function `rel : ℕ → List ℕ` since the code never mutates them. -/
structure HighlighterState where
  hovered : Option ℕ
  selected : Option ℕ
  layers : ℕ → ℕ → Bool

/-- The highlighter with nothing hovered or selected and every layer bit
clear. -/
def emptyHighlighter : HighlighterState :=
  { hovered := none, selected := none, layers := fun _ _ => false }

/-- Set one layer bit (`object.layers.enable/disable(channel)`). -/
def setLayerBit (m : ℕ → ℕ → Bool) (id ch : ℕ) (v : Bool) : ℕ → ℕ → Bool :=
  fun i c => if i = id ∧ c = ch then v else m i c

/-- Embedding of `enableLayer` (`SelectedProductHighlighter.enableLayer`): enables the
channel on the object and on every related sibling. -/
def enableLayer (rel : ℕ → List ℕ) (s : HighlighterState) (o ch : ℕ) : HighlighterState :=
  let s := { s with layers := setLayerBit s.layers o ch true }
  (rel o).foldl (fun s sib => { s with layers := setLayerBit s.layers sib ch true }) s

/-- Embedding of `disableLayer` (`SelectedProductHighlighter.disableLayer`). -/
def disableLayer (rel : ℕ → List ℕ) (s : HighlighterState) (o ch : ℕ) : HighlighterState :=
  let s := { s with layers := setLayerBit s.layers o ch false }
  (rel o).foldl (fun s sib => { s with layers := setLayerBit s.layers sib ch false }) s

/-- Embedding of `areObjectOrRelatedEqual` (`SelectedProductHighlighter`): same object or
any member of `[a, ...related(a)]` occurs in `[b, ...related(b)]`. -/
def areObjectOrRelatedEqual (rel : ℕ → List ℕ) (a b : ℕ) : Bool :=
  if a = b then true
  else
    let allA := a :: rel a
    let allB := b :: rel b
    allA.any (fun x => allB.any (fun y => y = x))

/-- Embedding of `setHoverMaterial`: skipped when the object (or a relative) equals the
currently selected object (selection wins); otherwise enables layer 1. -/
def setHoverMaterial (rel : ℕ → List ℕ) (s : HighlighterState) (o : ℕ) : HighlighterState :=
  match s.selected with
  | some sel =>
    if areObjectOrRelatedEqual rel o sel then s
    else enableLayer rel s o 1
  | none => enableLayer rel s o 1

/-- Embedding of `clearHoverMaterial`: disables layer 1. -/
def clearHoverMaterial (rel : ℕ → List ℕ) (s : HighlighterState) (o : ℕ) : HighlighterState :=
  disableLayer rel s o 1

/-- Embedding of `setSelectedMaterial`: enables layer 2; if the selected object overlaps
the hovered one, removes the hover layer. -/
def setSelectedMaterial (rel : ℕ → List ℕ) (s : HighlighterState) (o : ℕ) : HighlighterState :=
  let s := enableLayer rel s o 2
  match s.hovered with
  | some h =>
    if areObjectOrRelatedEqual rel o h then clearHoverMaterial rel s h
    else s
  | none => s

/-- Embedding of `clearSelectedMaterial`: disables layer 2; if the object overlaps the
hovered one, calls `setHoverMaterial` on the hovered object.  Note that
`setHoverMaterial` reads `this.selectedObject` at call time. -/
def clearSelectedMaterial (rel : ℕ → List ℕ) (s : HighlighterState) (o : ℕ) : HighlighterState :=
  let s := disableLayer rel s o 2
  match s.hovered with
  | some h =>
    if areObjectOrRelatedEqual rel o h then setHoverMaterial rel s h
    else s
  | none => s

/-- The `object3DPointerEnter` subscription: records the hovered object, then
`setHoverMaterial`. -/
def onPointerEnter (rel : ℕ → List ℕ) (s : HighlighterState) (o : ℕ) : HighlighterState :=
  let s := { s with hovered := some o }
  setHoverMaterial rel s o

/-- The `object3DPointerLeave` subscription: clears the hovered reference,
then `clearHoverMaterial`. -/
def onPointerLeave (rel : ℕ → List ℕ) (s : HighlighterState) (o : ℕ) : HighlighterState :=
  let s := { s with hovered := none }
  clearHoverMaterial rel s o

/-- The `object3DSelected` subscription: if something is selected, first
`clearSelectedMaterial` on it (with `selectedObject` still pointing at the
old object), then record the new selection and `setSelectedMaterial`. -/
def onSelect (rel : ℕ → List ℕ) (s : HighlighterState) (o : ℕ) : HighlighterState :=
  let s :=
    match s.selected with
    | some sel => clearSelectedMaterial rel s sel
    | none => s
  let s := { s with selected := some o }
  setSelectedMaterial rel s o

/-- The `object3DDeselected` subscription: clears the selected reference
first, then `clearSelectedMaterial`. -/
def onDeselect (rel : ℕ → List ℕ) (s : HighlighterState) (o : ℕ) : HighlighterState :=
  let s := { s with selected := none }
  clearSelectedMaterial rel s o

/-- Embedding of `isAnyProductHighlighted` (`EffectComposerHandler.ts:101-103`). -/
def isAnyProductHighlighted (s : HighlighterState) : Bool :=
  s.hovered.isSome || s.selected.isSome

end ThreeDViewer.Highlighter

namespace ThreeDViewer.AnimatedOutline

open ThreeDViewer.Highlighter

/-- The materials drawn with during the pass. -/
inductive MaterialKind where
  | hoverMask
  | selectedMask
  | blurMat
  | blurHalfMat
  | outlineMat
  | copyMat
deriving DecidableEq, Repr

/-- The mutable global `WebGLRenderer` state the pass reads and writes,
together with the camera layer mask and the scene override material (also
global, shared between passes).  `renderTarget = none` is the screen
(`setRenderTarget(null)`).  Clear colors are hex values. -/
structure RendererState where
  clearColor : ℕ
  clearAlpha : ℚ
  autoClear : Bool
  cameraLayers : ℕ
  overrideMaterial : Option MaterialKind
  renderTarget : Option Target
  stencilTest : Bool
deriving DecidableEq, Repr

/-- One GPU draw/clear issued during `render`: a `renderer.clear()`, a scene
render (`renderer.render(scene, camera)`, with the camera layer mask and
override material in effect), or a full-screen-quad render
(`fsQuad.render`). -/
inductive RenderOp where
  | clearTarget (target : Option Target)
  | sceneDraw (target : Option Target) (layer : ℕ) (override : Option MaterialKind)
  | quadDraw (target : Option Target) (material : MaterialKind)
deriving DecidableEq, Repr

/-- The field `maskClearColor`, the black clear colour used while rendering masks. -/
def maskClearColor : ℕ := 0x000000

/-- Embedding of `shouldRenderOutline` (`animated-texture-blur-outline-pass.ts:355-357`). -/
def shouldRenderOutline (hl : HighlighterState) : Bool :=
  isAnyProductHighlighted hl

/-- Embedding of `renderMaskTexture` (`animated-texture-blur-outline-pass.ts:411-425`):
clear the mask target, draw the scene with the hover mask material on layer
1, then with the selected mask material on layer 2, and reset the camera
layer mask to 0 and the override material to null. -/
def renderMaskTexture (r : RendererState) : RendererState × List RenderOp :=
  let r := { r with renderTarget := some Target.mask }
  let ops := [RenderOp.clearTarget (some Target.mask)]
  let r := { r with overrideMaterial := some MaterialKind.hoverMask, cameraLayers := 1 }
  let ops := ops ++ [RenderOp.sceneDraw (some Target.mask) 1 (some MaterialKind.hoverMask)]
  let r := { r with overrideMaterial := some MaterialKind.selectedMask, cameraLayers := 2 }
  let ops := ops ++ [RenderOp.sceneDraw (some Target.mask) 2 (some MaterialKind.selectedMask)]
  let r := { r with cameraLayers := 0, overrideMaterial := none }
  (r, ops)

/-- Embedding of `renderBlurTexture` (`animated-texture-blur-outline-pass.ts:427-443`):
horizontal blur of the mask into the horizontal target, then vertical blur of
that into the vertical target.  The blur material's `colorTexture` /
`direction` uniform writes select the inputs of each quad draw and are not
tracked separately. -/
def renderBlurTexture (r : RendererState) : RendererState × List RenderOp :=
  let r := { r with renderTarget := some Target.blurHorizontal }
  let ops := [RenderOp.clearTarget (some Target.blurHorizontal),
    RenderOp.quadDraw (some Target.blurHorizontal) MaterialKind.blurMat]
  let r := { r with renderTarget := some Target.blurVertical }
  let ops := ops ++ [RenderOp.clearTarget (some Target.blurVertical),
    RenderOp.quadDraw (some Target.blurVertical) MaterialKind.blurMat]
  (r, ops)

/-- Embedding of `renderBlurHalfTexture` (`animated-texture-blur-outline-pass.ts:445-459`). -/
def renderBlurHalfTexture (r : RendererState) : RendererState × List RenderOp :=
  let r := { r with renderTarget := some Target.blurHorizontalHalf }
  let ops := [RenderOp.clearTarget (some Target.blurHorizontalHalf),
    RenderOp.quadDraw (some Target.blurHorizontalHalf) MaterialKind.blurHalfMat]
  let r := { r with renderTarget := some Target.blurVerticalHalf2 }
  let ops := ops ++ [RenderOp.clearTarget (some Target.blurVerticalHalf2),
    RenderOp.quadDraw (some Target.blurVerticalHalf2) MaterialKind.blurHalfMat]
  (r, ops)

/-- Embedding of `renderOutline` (`animated-texture-blur-outline-pass.ts:375-406`): early
return when nothing is highlighted; otherwise save the renderer's clear
colour/alpha and auto-clear flag, run the mask and blur stages, bind the
composite uniforms (recomputing the `startU` scroll uniform only when
`animateOutline` is set), draw the composite quad into the read buffer, and
restore the saved renderer state. -/
def renderOutline (hl : HighlighterState) (st : PassState) (r : RendererState) :
    PassState × RendererState × List RenderOp :=
  if !shouldRenderOutline hl then (st, r, [])
  else
    let oldAutoClear := r.autoClear
    let oldClearAlpha := r.clearAlpha
    let oldClearColor := r.clearColor
    let r := { r with clearColor := maskClearColor, clearAlpha := 0, autoClear := false }
    let mask := renderMaskTexture r
    let r := mask.1
    let ops1 := mask.2
    let blur := renderBlurTexture r
    let r := blur.1
    let ops2 := blur.2
    let blurHalf := renderBlurHalfTexture r
    let r := blurHalf.1
    let ops3 := blurHalf.2
    let st := { st with
      uniformMaskTexture := some Target.mask
      uniformBlurTexture := some Target.blurVertical
      uniformBlurHalfTexture := some Target.blurVerticalHalf2 }
    let st :=
      if st.animateOutline then
        let progress := st.elapsed / st.interval
        { st with uniformStartU := st.startU + st.tileCount * progress }
      else st
    let r := { r with renderTarget := some Target.readBuffer }
    let ops4 := [RenderOp.quadDraw (some Target.readBuffer) MaterialKind.outlineMat]
    let r := { r with autoClear := oldAutoClear, clearColor := oldClearColor,
                      clearAlpha := oldClearAlpha }
    (st, r, ops1 ++ ops2 ++ ops3 ++ ops4)

/-- Embedding of `render` (`animated-texture-blur-outline-pass.ts:359-373`): accumulate
`deltaTime` into `elapsed` modulo `interval` (unconditionally), run
`renderOutline`, re-enable the stencil test if a mask is active, and when
this is the terminal pass copy the read buffer to the screen. -/
def render (hl : HighlighterState) (st : PassState) (r : RendererState)
    (deltaTime : ℚ) (maskActive : Bool) : PassState × RendererState × List RenderOp :=
  let st := { st with elapsed := jsRem (st.elapsed + deltaTime) st.interval }
  let outline := renderOutline hl st r
  let st := outline.1
  let r := outline.2.1
  let ops := outline.2.2
  let r := if maskActive then { r with stencilTest := true } else r
  let copy :=
    if st.renderToScreen then
      ({ r with renderTarget := none }, [RenderOp.quadDraw none MaterialKind.copyMat])
    else (r, ([] : List RenderOp))
  (st, copy.1, ops ++ copy.2)

end ThreeDViewer.AnimatedOutline

namespace ThreeDViewer.ColorOutline

open ThreeDViewer

/-- A GLSL `vec3` over exact rationals. -/
structure Vec3 where
  x : ℚ
  y : ℚ
  z : ℚ
deriving DecidableEq, Repr

/-- A GLSL `vec4` over exact rationals. -/
structure Vec4 where
  x : ℚ
  y : ℚ
  z : ℚ
  w : ℚ
deriving DecidableEq, Repr

/-- Componentwise `vec3` addition. -/
def addV3 (a b : Vec3) : Vec3 :=
  ⟨a.x + b.x, a.y + b.y, a.z + b.z⟩

/-- GLSL componentwise `min` on `vec3`. -/
def minV3 (a b : Vec3) : Vec3 :=
  ⟨min a.x b.x, min a.y b.y, min a.z b.z⟩

/-- Embedding of `getOutlineColor` from the `ColorBlurOutlinePass` fragment shader
(`ColorBlurOutlinePass.ts:269-273`):
`blurOutline = clamp((blur - mask) * 2.5, 0.0, 1.0)` and the returned
`vec4` is the outline colour scaled by it, with `blurOutline` as alpha. -/
def getOutlineColor (mask blur : ℚ) (outlineColor : Vec3) : Vec4 :=
  let blurOutline := clampQ ((blur - mask) * (5 / 2)) 0 1
  ⟨outlineColor.x * blurOutline, outlineColor.y * blurOutline,
   outlineColor.z * blurOutline, blurOutline⟩

/-- The `main` of the `ColorBlurOutlinePass` fragment shader
(`ColorBlurOutlinePass.ts:275-285`) at one pixel: the sampled mask, blur and
half-res blur texels are combined into `gl_FragColor`.  Hover uses the red
channels, selected the green channels. -/
def fragmentMain (maskColor blurColor blurHalfColor : Vec4)
    (hoverOutlineColor selectedOutlineColor : Vec3) : Vec4 :=
  let combinedBlur := minV3 (addV3 ⟨blurColor.x, blurColor.y, blurColor.z⟩
    ⟨blurHalfColor.x, blurHalfColor.y, blurHalfColor.z⟩) ⟨1, 1, 1⟩
  let hover := getOutlineColor maskColor.x combinedBlur.x hoverOutlineColor
  let selected := getOutlineColor maskColor.y combinedBlur.y selectedOutlineColor
  ⟨hover.x + selected.x, hover.y + selected.y, hover.z + selected.z,
   max hover.w selected.w⟩

end ThreeDViewer.ColorOutline

namespace ThreeDViewer

open ThreeDViewer.AnimatedOutline ThreeDViewer.Highlighter ThreeDViewer.ColorOutline

/-- A concrete renderer state used to instantiate theorems: arbitrary clear
colour and alpha, auto-clear on, camera on layer 0, no override material. -/
def sampleRenderer : RendererState := {
  clearColor := 0xabcdef
  clearAlpha := 3 / 4
  autoClear := true
  cameraLayers := 0
  overrideMaterial := none
  renderTarget := none
  stencilTest := false }

/-- A highlighter state with one object selected (outline active). -/
def selectedHighlighter : HighlighterState :=
  { emptyHighlighter with selected := some 0 }

/-- A pass state (constructed at resolution 8×8) with the outline animation
disabled. -/
def animationOffState : PassState :=
  { initPass 8 8 with animateOutline := false }

/-- A pass state (constructed at resolution 8×8) with `tileCount = 2`,
matching the spec's concrete animation scenario. -/
def tileTwoState : PassState :=
  { initPass 8 8 with tileCount := 2 }

/-- C1, amended part.  `setSize(w, h)` with positive inputs sets the mask
target to `(w, h)`, the horizontal full-res blur target (and the blur
material's `texSize` uniform) to `(round(w/2), round(h/2))`, and the
horizontal half-res blur target (and its `texSize` uniform) to
`(round(round(w/2)/2), round(round(h/2)/2))` — not `round(w/4)`.  The
vertical full-res and half-res blur targets keep their previous dimensions.
The resized targets depend only on the inputs, so repeating the call with
the same inputs is idempotent for them. -/
theorem c1_setSize_resizes_only_horizontal_targets (st : PassState) (w h : ℚ)
    (_hw : 0 < w) (_hh : 0 < h) :
    (setSize st w h).maskSize = (w, h) ∧
    (setSize st w h).blurHSize = (jsRoundQ (w / 2), jsRoundQ (h / 2)) ∧
    (setSize st w h).blurTexSize = (jsRoundQ (w / 2), jsRoundQ (h / 2)) ∧
    (setSize st w h).blurHHalfSize =
      (jsRoundQ (jsRoundQ (w / 2) / 2), jsRoundQ (jsRoundQ (h / 2) / 2)) ∧
    (setSize st w h).blurHalfTexSize =
      (jsRoundQ (jsRoundQ (w / 2) / 2), jsRoundQ (jsRoundQ (h / 2) / 2)) ∧
    (setSize st w h).blurVSize = st.blurVSize ∧
    (setSize st w h).blurVHalf2Size = st.blurVHalf2Size := by
  refine ⟨rfl, ?_, ?_, ?_, ?_, rfl, rfl⟩ <;> simp [setSize, downsampleResolution]

/-- Witness for `c1_setSize_resizes_only_horizontal_targets` at the pass
constructed at 8×8 and `setSize(5, 5)`. -/
theorem c1_setSize_resizes_only_horizontal_targets_witness :
    (setSize (initPass 8 8) 5 5).maskSize = (5, 5) ∧
    (setSize (initPass 8 8) 5 5).blurHSize = (jsRoundQ (5 / 2), jsRoundQ (5 / 2)) ∧
    (setSize (initPass 8 8) 5 5).blurTexSize = (jsRoundQ (5 / 2), jsRoundQ (5 / 2)) ∧
    (setSize (initPass 8 8) 5 5).blurHHalfSize =
      (jsRoundQ (jsRoundQ (5 / 2) / 2), jsRoundQ (jsRoundQ (5 / 2) / 2)) ∧
    (setSize (initPass 8 8) 5 5).blurHalfTexSize =
      (jsRoundQ (jsRoundQ (5 / 2) / 2), jsRoundQ (jsRoundQ (5 / 2) / 2)) ∧
    (setSize (initPass 8 8) 5 5).blurVSize = (initPass 8 8).blurVSize ∧
    (setSize (initPass 8 8) 5 5).blurVHalf2Size = (initPass 8 8).blurVHalf2Size :=
  c1_setSize_resizes_only_horizontal_targets (initPass 8 8) 5 5 (by norm_num) (by norm_num)

/-- C1, counterexample.  With the pass constructed at 8×8 and `setSize(5, 5)`
the claim demands the full-res pair at `(round(5/2), round(5/2)) = (3, 3)`
and the half-res pair at `(round(5/4), round(5/4)) = (1, 1)`; in fact the
vertical full-res target stays at `(4, 4)`, the vertical half-res target
stays at `(2, 2)`, and even the resized horizontal half-res target is at
`(round(round(5/2)/2), _) = (2, 2)`. -/
theorem c1_counterexample :
    ¬ ((setSize (initPass 8 8) 5 5).blurVSize = (jsRoundQ (5 / 2), jsRoundQ (5 / 2)) ∧
       (setSize (initPass 8 8) 5 5).blurHHalfSize = (jsRoundQ (5 / 4), jsRoundQ (5 / 4)) ∧
       (setSize (initPass 8 8) 5 5).blurVHalf2Size = (jsRoundQ (5 / 4), jsRoundQ (5 / 4))) := by
  intro h
  have h1 := h.1
  simp only [setSize, initPass, initBlurRenderTargetsAndMaterials, jsRoundQ, jsRound,
    downsampleResolution, Prod.mk.injEq] at h1
  norm_num at h1

/-- C8, amended part.  `setSize` performs no validation at all: zero or
negative dimensions are applied to the targets exactly like positive ones
(the mask target receives `(w, h)` itself, the horizontal blur targets the
rounded downsampled values), rather than being rejected as a no-op. -/
theorem c8_setSize_applies_degenerate_sizes (st : PassState) (w h : ℚ)
    (_hdeg : w ≤ 0 ∨ h ≤ 0) :
    (setSize st w h).maskSize = (w, h) ∧
    (setSize st w h).blurHSize = (jsRoundQ (w / 2), jsRoundQ (h / 2)) ∧
    (setSize st w h).blurHHalfSize =
      (jsRoundQ (jsRoundQ (w / 2) / 2), jsRoundQ (jsRoundQ (h / 2) / 2)) := by
  refine ⟨rfl, ?_, ?_⟩ <;> simp [setSize, downsampleResolution]

/-- Witness for `c8_setSize_applies_degenerate_sizes` at width 0 and
height 0. -/
theorem c8_setSize_applies_degenerate_sizes_witness :
    (setSize (initPass 8 8) 0 0).maskSize = (0, 0) ∧
    (setSize (initPass 8 8) 0 0).blurHSize = (jsRoundQ (0 / 2), jsRoundQ (0 / 2)) ∧
    (setSize (initPass 8 8) 0 0).blurHHalfSize =
      (jsRoundQ (jsRoundQ (0 / 2) / 2), jsRoundQ (jsRoundQ (0 / 2) / 2)) :=
  c8_setSize_applies_degenerate_sizes (initPass 8 8) 0 0 (Or.inl le_rfl)

/-- C8, counterexample.  `setSize(0, 0)` is not a no-op: the mask target of
the pass constructed at 8×8 is resized from `(8, 8)` to the degenerate
`(0, 0)`. -/
theorem c8_counterexample :
    (setSize (initPass 8 8) 0 0).maskSize = (0, 0) ∧
    (initPass 8 8).maskSize = (8, 8) ∧
    setSize (initPass 8 8) 0 0 ≠ initPass 8 8 := by
  decide

/-- C2.  When nothing is hovered and nothing is selected,
`shouldRenderOutline()` is false and `render()` issues no draw or clear at
all into the mask or blur targets (or anywhere else) except the optional
pass-through copy of the read buffer to the screen. -/
theorem c2_idle_render_draws_nothing (hl : HighlighterState) (st : PassState)
    (r : RendererState) (d : ℚ) (mA : Bool)
    (h : hl.hovered = none ∧ hl.selected = none) :
    shouldRenderOutline hl = false ∧
    (render hl st r d mA).2.2 =
      (if st.renderToScreen then [RenderOp.quadDraw none MaterialKind.copyMat] else []) := by
  have hs : shouldRenderOutline hl = false := by
    simp [shouldRenderOutline, isAnyProductHighlighted, h.1, h.2]
  refine ⟨hs, ?_⟩
  simp only [render, renderOutline, hs, Bool.not_false, if_true]
  by_cases hrs : st.renderToScreen <;> simp [hrs]

/-- Witness for `c2_idle_render_draws_nothing`: the empty highlighter with
the pass built at 8×8 (not the terminal pass, so not even the pass-through
copy is drawn). -/
theorem c2_idle_render_draws_nothing_witness :
    shouldRenderOutline emptyHighlighter = false ∧
    (render emptyHighlighter (initPass 8 8) sampleRenderer 1 false).2.2 = [] := by
  have h := c2_idle_render_draws_nothing emptyHighlighter (initPass 8 8) sampleRenderer 1 false
    ⟨rfl, rfl⟩
  simpa [initPass, initBlurRenderTargetsAndMaterials] using h

/-- C7.  After any `render()` call the renderer's clear colour, clear alpha
and auto-clear flag equal their values at entry, and — provided the camera
entered on layer 0 with no scene override material, the steady state between
frames — the camera layer mask is back at layer 0 and the override material
cleared.  This covers both the active path (which saves and restores the
clear state and resets camera/override at the end of the mask pass) and the
idle early-return path (which touches nothing). -/
theorem c7_renderer_state_restored (hl : HighlighterState) (st : PassState)
    (r : RendererState) (d : ℚ) (mA : Bool)
    (h : r.cameraLayers = 0 ∧ r.overrideMaterial = none) :
    ((render hl st r d mA).2.1.clearColor = r.clearColor ∧
     (render hl st r d mA).2.1.clearAlpha = r.clearAlpha ∧
     (render hl st r d mA).2.1.autoClear = r.autoClear) ∧
    ((render hl st r d mA).2.1.cameraLayers = 0 ∧
     (render hl st r d mA).2.1.overrideMaterial = none) := by
  by_cases hs : shouldRenderOutline hl <;>
    by_cases hrs : st.renderToScreen <;>
      by_cases hmA : mA <;>
        by_cases hao : st.animateOutline <;>
          simp [render, renderOutline, renderMaskTexture, renderBlurTexture,
            renderBlurHalfTexture, hs, hrs, hmA, hao, h.1, h.2]

/-- Witness for `c7_renderer_state_restored` on the active path: one object
selected, concrete renderer with clear colour `0xabcdef`, alpha `3/4`. -/
theorem c7_renderer_state_restored_witness :
    (((render selectedHighlighter (initPass 8 8) sampleRenderer 1 true).2.1.clearColor
        = sampleRenderer.clearColor ∧
      (render selectedHighlighter (initPass 8 8) sampleRenderer 1 true).2.1.clearAlpha
        = sampleRenderer.clearAlpha ∧
      (render selectedHighlighter (initPass 8 8) sampleRenderer 1 true).2.1.autoClear
        = sampleRenderer.autoClear) ∧
     ((render selectedHighlighter (initPass 8 8) sampleRenderer 1 true).2.1.cameraLayers = 0 ∧
      (render selectedHighlighter (initPass 8 8) sampleRenderer 1 true).2.1.overrideMaterial
        = none)) ∧
    shouldRenderOutline selectedHighlighter = true :=
  ⟨c7_renderer_state_restored selectedHighlighter (initPass 8 8) sampleRenderer 1 true
    ⟨rfl, rfl⟩, rfl⟩

/-- C3.  With `animateOutline` enabled, each `render(…, deltaTime, …)` call
accumulates `deltaTime` into `elapsed` modulo `interval` (given the
maintained invariants `0 ≤ elapsed`, `0 < interval` and a nonnegative
delta, the JS `%` is exactly the mathematical mod, landing in
`[0, interval)`), and whenever the render is active (something highlighted)
the shader's scroll-offset uniform afterwards equals
`startU + tileCount * (elapsed / interval)` for the updated `elapsed`. -/
theorem c3_scroll_uniform_formula (hl : HighlighterState) (st : PassState)
    (r : RendererState) (d : ℚ) (mA : Bool)
    (hAnim : st.animateOutline = true) (hInt : 0 < st.interval)
    (hE : 0 ≤ st.elapsed) (hD : 0 ≤ d) :
    ((render hl st r d mA).1.elapsed
        = (st.elapsed + d) - st.interval * (⌊(st.elapsed + d) / st.interval⌋ : ℤ) ∧
      0 ≤ (render hl st r d mA).1.elapsed ∧
      (render hl st r d mA).1.elapsed < st.interval) ∧
    (shouldRenderOutline hl = true →
      (render hl st r d mA).1.uniformStartU
        = st.startU + st.tileCount * ((render hl st r d mA).1.elapsed / st.interval)) := by
  have hq : 0 ≤ (st.elapsed + d) / st.interval := div_nonneg (by linarith) hInt.le
  have hrem : jsRem (st.elapsed + d) st.interval
      = (st.elapsed + d) - st.interval * (⌊(st.elapsed + d) / st.interval⌋ : ℤ) := by
    rw [jsRem, jsTrunc, if_pos hq]
  have helapsed : (render hl st r d mA).1.elapsed = jsRem (st.elapsed + d) st.interval := by
    by_cases hs : shouldRenderOutline hl <;>
      simp [render, renderOutline, hs, hAnim]
  have hfract : jsRem (st.elapsed + d) st.interval
      = st.interval * Int.fract ((st.elapsed + d) / st.interval) := by
    rw [hrem, Int.fract]
    field_simp
  refine ⟨⟨by rw [helapsed, hrem], ?_, ?_⟩, ?_⟩
  · rw [helapsed, hfract]
    exact mul_nonneg hInt.le (Int.fract_nonneg _)
  · rw [helapsed, hfract]
    calc st.interval * Int.fract ((st.elapsed + d) / st.interval)
        < st.interval * 1 := by
          exact mul_lt_mul_of_pos_left (Int.fract_lt_one _) hInt
      _ = st.interval := mul_one _
  · intro hs
    rw [helapsed]
    simp [render, renderOutline, hs, hAnim]

/-- Witness for `c3_scroll_uniform_formula`, the spec's concrete scenario:
`interval = 60`, `tileCount = 2`, `startU = 0`, one object selected.  A
render with `deltaTime = 30` gives `elapsed = 30` and scroll uniform
`0 + 2 * (30 / 60) = 1`; a second render with `deltaTime = 30` wraps
`elapsed` back to `0` and the scroll uniform to `0`. -/
theorem c3_scroll_uniform_formula_witness :
    ((render selectedHighlighter tileTwoState sampleRenderer 30 false).1.elapsed = 30 ∧
     (render selectedHighlighter tileTwoState sampleRenderer 30 false).1.uniformStartU = 1) ∧
    ((render selectedHighlighter
        (render selectedHighlighter tileTwoState sampleRenderer 30 false).1
        sampleRenderer 30 false).1.elapsed = 0 ∧
     (render selectedHighlighter
        (render selectedHighlighter tileTwoState sampleRenderer 30 false).1
        sampleRenderer 30 false).1.uniformStartU = 0) := by
  have hAnim1 : tileTwoState.animateOutline = true := rfl
  have hInt1 : (0 : ℚ) < tileTwoState.interval := by norm_num [tileTwoState, initPass,
    initBlurRenderTargetsAndMaterials]
  have hE1 : (0 : ℚ) ≤ tileTwoState.elapsed := by norm_num [tileTwoState, initPass,
    initBlurRenderTargetsAndMaterials]
  have h1 := c3_scroll_uniform_formula selectedHighlighter tileTwoState sampleRenderer 30 false
    hAnim1 hInt1 hE1 (by norm_num)
  have hint : tileTwoState.interval = 60 := rfl
  have hel : tileTwoState.elapsed = 0 := rfl
  have htc : tileTwoState.tileCount = 2 := rfl
  have hsu : tileTwoState.startU = 0 := rfl
  have he1 : (render selectedHighlighter tileTwoState sampleRenderer 30 false).1.elapsed = 30 := by
    rw [h1.1.1, hint, hel]
    norm_num
  have hu1 : (render selectedHighlighter tileTwoState sampleRenderer 30 false).1.uniformStartU
      = 1 := by
    rw [h1.2 rfl, he1, hint, htc, hsu]
    norm_num
  set st2 := (render selectedHighlighter tileTwoState sampleRenderer 30 false).1 with hst2
  have hAnim2 : st2.animateOutline = true := by
    rw [hst2]
    by_cases hs : shouldRenderOutline selectedHighlighter <;>
      simp [render, renderOutline, hs, hAnim1]
  have hInt2 : st2.interval = 60 := by
    rw [hst2]
    have : ∀ hl r d mA, (render hl tileTwoState r d mA).1.interval = tileTwoState.interval := by
      intro hl r d mA
      by_cases hs : shouldRenderOutline hl <;>
        by_cases hao : tileTwoState.animateOutline <;>
          simp [render, renderOutline, hs, hao]
    rw [this]
    exact hint
  have hTc2 : st2.tileCount = 2 := by
    rw [hst2]
    have : ∀ hl r d mA, (render hl tileTwoState r d mA).1.tileCount = tileTwoState.tileCount := by
      intro hl r d mA
      by_cases hs : shouldRenderOutline hl <;>
        by_cases hao : tileTwoState.animateOutline <;>
          simp [render, renderOutline, hs, hao]
    rw [this]
    exact htc
  have hSu2 : st2.startU = 0 := by
    rw [hst2]
    have : ∀ hl r d mA, (render hl tileTwoState r d mA).1.startU = tileTwoState.startU := by
      intro hl r d mA
      by_cases hs : shouldRenderOutline hl <;>
        by_cases hao : tileTwoState.animateOutline <;>
          simp [render, renderOutline, hs, hao]
    rw [this]
    exact hsu
  have h2 := c3_scroll_uniform_formula selectedHighlighter st2 sampleRenderer 30 false
    hAnim2 (by rw [hInt2]; norm_num) (by rw [he1]; norm_num) (by norm_num)
  have he2 : (render selectedHighlighter st2 sampleRenderer 30 false).1.elapsed = 0 := by
    rw [h2.1.1, hInt2, he1]
    norm_num
  have hu2 : (render selectedHighlighter st2 sampleRenderer 30 false).1.uniformStartU = 0 := by
    rw [h2.2 rfl, he2, hInt2, hTc2, hSu2]
    norm_num
  exact ⟨⟨he1, hu1⟩, ⟨he2, hu2⟩⟩

/-- C4, counterexample.  The claimed invariant `animateOutline = false →
elapsed = 0` is broken by `render()`: from the freshly constructed pass with
animation disabled (`elapsed = 0`), a single `render` call with
`deltaTime = 1` leaves `elapsed = 1 % 60 = 1 ≠ 0`, because line 360
accumulates `deltaTime` unconditionally. -/
theorem c4_counterexample :
    (render emptyHighlighter animationOffState sampleRenderer 1 false).1.elapsed ≠ 0 := by
  have hs : shouldRenderOutline emptyHighlighter = false := rfl
  have hel : (render emptyHighlighter animationOffState sampleRenderer 1 false).1.elapsed
      = jsRem (animationOffState.elapsed + 1) animationOffState.interval := by
    simp [render, renderOutline, hs]
  have h0 : animationOffState.elapsed = 0 := rfl
  have h60 : animationOffState.interval = 60 := rfl
  rw [hel, h0, h60, jsRem, jsTrunc]
  norm_num

/-- C4, amended.  With animation disabled the `startU` uniform does hold the
statically configured value and is never rewritten: `setOptions` leaving
`animateOutline = false` forces `elapsed = 0` and resets the `startU`
uniform to the configured `startU`, and `render` never modifies the `startU`
field or its uniform while `animateOutline` is false — but `render` still
accumulates `deltaTime` into `elapsed`, so `elapsed = 0` is not preserved by
`render` calls (see the counterexample). -/
theorem c4_disabled_animation_amended :
    (∀ (st : PassState) (o : Options), (setOptions st o).animateOutline = false →
      (setOptions st o).elapsed = 0 ∧
      (setOptions st o).uniformStartU = (setOptions st o).startU) ∧
    (∀ (hl : HighlighterState) (st : PassState) (r : RendererState) (d : ℚ) (mA : Bool),
      st.animateOutline = false →
      (render hl st r d mA).1.uniformStartU = st.uniformStartU ∧
      (render hl st r d mA).1.startU = st.startU) := by
  constructor
  · intro st o h
    by_cases hao : (o.animateOutline.getD st.animateOutline) = true
    · exfalso
      revert h
      simp only [setOptions]
      cases o.animationInterval <;> simp [hao]
    · revert h
      simp only [setOptions]
      cases o.animationInterval <;> simp [hao]
  · intro hl st r d mA h
    by_cases hs : shouldRenderOutline hl <;>
      simp [render, renderOutline, hs, h]

/-- Witness for `c4_disabled_animation_amended`: `setOptions` turning
animation off on the animated sample state resets `elapsed` and the uniform,
and a disabled-state render keeps the `startU` uniform. -/
theorem c4_disabled_animation_amended_witness :
    ((setOptions tileTwoState { animateOutline := some false }).elapsed = 0 ∧
     (setOptions tileTwoState { animateOutline := some false }).uniformStartU
        = (setOptions tileTwoState { animateOutline := some false }).startU) ∧
    ((render emptyHighlighter animationOffState sampleRenderer 1 false).1.uniformStartU
        = animationOffState.uniformStartU ∧
     (render emptyHighlighter animationOffState sampleRenderer 1 false).1.startU
        = animationOffState.startU) :=
  ⟨c4_disabled_animation_amended.1 tileTwoState { animateOutline := some false } rfl,
   c4_disabled_animation_amended.2 emptyHighlighter animationOffState sampleRenderer 1 false rfl⟩

/-- C5, failing input.  Objects `0` and `1`, no related siblings.  Events:
pointer-enter `0` (layer 1 on), select `0` (layer 1 off, layer 2 on), then
select `1` while `0` is still hovered.  The switch does disable layer 2 on
`0` and enable it on `1`, but layer 1 on the still-hovered object `0` stays
disabled: inside `clearSelectedMaterial(0)` the call `setHoverMaterial(0)`
hits its guard `this.selectedObject && areObjectOrRelatedEqual(0,
selectedObject)` — `selectedObject` still refers to `0` at that moment — and
returns without enabling the layer, contrary to the claimed re-enable. -/
theorem c5_switch_selection_keeps_hover_layer_disabled :
    (onSelect (fun _ => []) (onSelect (fun _ => [])
        (onPointerEnter (fun _ => []) emptyHighlighter 0) 0) 1).hovered = some 0 ∧
    (onSelect (fun _ => []) (onSelect (fun _ => [])
        (onPointerEnter (fun _ => []) emptyHighlighter 0) 0) 1).selected = some 1 ∧
    (onSelect (fun _ => []) (onSelect (fun _ => [])
        (onPointerEnter (fun _ => []) emptyHighlighter 0) 0) 1).layers 0 2 = false ∧
    (onSelect (fun _ => []) (onSelect (fun _ => [])
        (onPointerEnter (fun _ => []) emptyHighlighter 0) 0) 1).layers 1 2 = true ∧
    (onSelect (fun _ => []) (onSelect (fun _ => [])
        (onPointerEnter (fun _ => []) emptyHighlighter 0) 0) 1).layers 0 1 = false := by
  refine ⟨rfl, rfl, ?_, ?_, ?_⟩ <;> decide

/-- C6, failing input.  Starting from the constructed pass, the hover
channel is given an image (texture 0 gets the image), then a render target
(uniform correctly repointed to the target's texture), then a second image.
On that last switch the code allocates fresh texture 2 and binds it, but the
supplied image is never assigned — `texture.image = image` lives in the
`isTexture` branch only — so the bound texture has `image = none` instead of
the most recently supplied image. -/
theorem c6_render_target_to_image_drops_image :
    (setColors (setColors (initPass 8 8)
        { hover := some (TexInput.img ⟨false, 4, 4, 4, 4⟩), selected := none })
        { hover := some (TexInput.rtIn 7), selected := none }).uniformHover
      = UniformVal.rtTex 7 ∧
    (setColors (setColors (setColors (initPass 8 8)
        { hover := some (TexInput.img ⟨false, 4, 4, 4, 4⟩), selected := none })
        { hover := some (TexInput.rtIn 7), selected := none })
        { hover := some (TexInput.img ⟨false, 9, 9, 9, 9⟩), selected := none }).uniformHover
      = UniformVal.texRef 2 ∧
    (setColors (setColors (setColors (initPass 8 8)
        { hover := some (TexInput.img ⟨false, 4, 4, 4, 4⟩), selected := none })
        { hover := some (TexInput.rtIn 7), selected := none })
        { hover := some (TexInput.img ⟨false, 9, 9, 9, 9⟩), selected := none }).hoverTexture
      = ChannelVal.tex 2 none false := by
  refine ⟨?_, ?_, ?_⟩ <;> decide

/-- C9.  At every pixel the composite shader of `ColorBlurOutlinePass`
computes, for each channel `c ∈ {hover (red), selected (green)}`, the edge
value `clamp((blur_c - mask_c) * 2.5, 0, 1)` where `blur_c` is the
channelwise sum of the full-res and half-res blur samples clamped to 1; the
output colour is the sum of the two channels' edge-weighted colours and the
output alpha is the maximum of the two edge values. -/
theorem c9_composite_shader_formula (maskColor blurColor blurHalfColor : Vec4)
    (hoverColor selectedColor : Vec3) :
    fragmentMain maskColor blurColor blurHalfColor hoverColor selectedColor =
      ⟨hoverColor.x * clampQ ((min (blurColor.x + blurHalfColor.x) 1 - maskColor.x) * (5 / 2)) 0 1
         + selectedColor.x
           * clampQ ((min (blurColor.y + blurHalfColor.y) 1 - maskColor.y) * (5 / 2)) 0 1,
       hoverColor.y * clampQ ((min (blurColor.x + blurHalfColor.x) 1 - maskColor.x) * (5 / 2)) 0 1
         + selectedColor.y
           * clampQ ((min (blurColor.y + blurHalfColor.y) 1 - maskColor.y) * (5 / 2)) 0 1,
       hoverColor.z * clampQ ((min (blurColor.x + blurHalfColor.x) 1 - maskColor.x) * (5 / 2)) 0 1
         + selectedColor.z
           * clampQ ((min (blurColor.y + blurHalfColor.y) 1 - maskColor.y) * (5 / 2)) 0 1,
       max (clampQ ((min (blurColor.x + blurHalfColor.x) 1 - maskColor.x) * (5 / 2)) 0 1)
           (clampQ ((min (blurColor.y + blurHalfColor.y) 1 - maskColor.y) * (5 / 2)) 0 1)⟩ :=
  rfl

/-- C10.  When `options.edgeGlow` is omitted, `setOptions` sets `edgeGlow`
to the edge-thickness value in effect after applying `options.edgeThickness`
(the `?? this.edgeThickness` fallback), rather than keeping the old
`edgeGlow`; every other omitted option field keeps its previous value. -/
theorem c10_omitted_edgeGlow_tracks_edgeThickness (st : PassState) (o : Options)
    (h : o.edgeGlow = none) :
    (setOptions st o).edgeGlow = (setOptions st o).edgeThickness ∧
    (setOptions st o).edgeThickness = o.edgeThickness.getD st.edgeThickness ∧
    (o.edgeThickness = none → (setOptions st o).edgeThickness = st.edgeThickness) ∧
    (o.startU = none → (setOptions st o).startU = st.startU) ∧
    (o.tileCount = none → (setOptions st o).tileCount = st.tileCount) ∧
    (o.animateOutline = none → (setOptions st o).animateOutline = st.animateOutline) ∧
    (o.animationInterval = none → (setOptions st o).interval = st.interval) := by
  by_cases hao : (o.animateOutline.getD st.animateOutline) = true <;>
    cases hai : o.animationInterval <;>
      refine ⟨?_, ?_, fun hn => ?_, fun hn => ?_, fun hn => ?_, fun hn => ?_, fun hn => ?_⟩ <;>
        simp_all [setOptions, h]

/-- Witness for `c10_omitted_edgeGlow_tracks_edgeThickness`: options with
`edgeThickness = 7` and everything else omitted, applied to the constructed
pass (whose `edgeGlow` was 2). -/
theorem c10_omitted_edgeGlow_tracks_edgeThickness_witness :
    (setOptions (initPass 8 8) { edgeThickness := some 7 }).edgeGlow
      = (setOptions (initPass 8 8) { edgeThickness := some 7 }).edgeThickness ∧
    (setOptions (initPass 8 8) { edgeThickness := some 7 }).edgeThickness = 7 ∧
    (setOptions (initPass 8 8) { edgeThickness := some 7 }).startU = (initPass 8 8).startU ∧
    (setOptions (initPass 8 8) { edgeThickness := some 7 }).tileCount
      = (initPass 8 8).tileCount ∧
    (setOptions (initPass 8 8) { edgeThickness := some 7 }).animateOutline
      = (initPass 8 8).animateOutline ∧
    (setOptions (initPass 8 8) { edgeThickness := some 7 }).interval
      = (initPass 8 8).interval := by
  have h := c10_omitted_edgeGlow_tracks_edgeThickness (initPass 8 8)
    { edgeThickness := some 7 } rfl
  exact ⟨h.1, h.2.1, h.2.2.2.1 rfl, h.2.2.2.2.1 rfl, h.2.2.2.2.2.1 rfl, h.2.2.2.2.2.2 rfl⟩

end ThreeDViewer
